import Mathlib

/-!
Verification of the AstraGuard health registry (`src/core/component_health.py`)
and audit logger (`src/core/audit_logger.py`).

The Python code is shallowly embedded: the component map is an association
list with Python-dict update semantics (update-in-place on an existing key,
append otherwise), metadata dictionaries live on an explicit heap of dict
objects addressed by allocation index (so that object sharing between the
registry and returned snapshots is observable), timestamps are abstract
naturals supplied by the caller, and the fallible resource-metrics
collaborator is an explicit `ok`/`err` input.
-/

namespace AstraGuard

/-- Metadata values: Python scalars plus nested dictionaries.  Real-number
metric values are modelled over ℚ. -/
inductive Value where
  | str (s : String)
  | int (n : Int)
  | num (q : Rat)
  | bool (b : Bool)
  | vdict (entries : List (String × Value))

/-- A Python dict with string keys, as an association list in insertion
order. -/
abbrev Dict := List (String × Value)

/-- Python dict assignment `d[k] = v`: replace the first binding of `k` in
place, else append at the end. -/
def dictInsert {α : Type} : List (String × α) → String → α → List (String × α)
  | [], k, v => [(k, v)]
  | (k', v') :: rest, k, v =>
    if k' = k then (k, v) :: rest else (k', v') :: dictInsert rest k v

/-- Python `d.update(n)`: assign every binding of `n` into `d`, in order. -/
def dictUpdate (d n : Dict) : Dict :=
  n.foldl (fun acc p => dictInsert acc p.1 p.2) d

/-- Heap of metadata dict objects; an address is an index into the list. -/
abbrev Heap := List Dict

/-- Read the dict object at address `a` (total; every address used by the
embedded code is allocated). -/
def heapGetD (h : Heap) (a : Nat) : Dict :=
  (h.get? a).getD []

/-- Overwrite the dict object at address `a`. -/
def heapSet (h : Heap) (a : Nat) (d : Dict) : Heap :=
  h.set a d

/-- Python truthiness of an `Optional[Dict]` argument (`if metadata:`):
false when `None` or empty. -/
def dictTruthy : Option Dict → Bool
  | none => false
  | some d => !d.isEmpty

/-- `metadata or {}`: the given dict when truthy, else a fresh empty dict. -/
def dictOrEmpty : Option Dict → Dict
  | none => []
  | some d => d

/-- `HealthStatus` enum from `component_health.py`. -/
inductive HealthStatus where
  | healthy
  | degraded
  | failed
  | unknown
deriving DecidableEq

/-- The enum's `.value` string encoding. -/
def HealthStatus.value : HealthStatus → String
  | .healthy => "healthy"
  | .degraded => "degraded"
  | .failed => "failed"
  | .unknown => "unknown"

/-- `ComponentHealth` dataclass.  `metadata` is the heap address of the
record's metadata dict object; timestamps are abstract naturals. -/
structure ComponentHealth where
  name : String
  status : HealthStatus
  last_updated : Nat
  error_count : Nat
  warning_count : Nat
  last_error : Option String
  last_error_time : Option Nat
  fallback_active : Bool
  metadata : Nat
deriving DecidableEq

/-- The `metadata` value inside a dict produced by `to_dict`:
`self.metadata or {}` either aliases the record's own dict object (`ref`)
or is a freshly created empty dict (`copy`). -/
inductive MetaVal where
  | ref (a : Nat)
  | copy (d : Dict)

/-- The dictionary produced by `ComponentHealth.to_dict` (`isoformat` on
timestamps is modelled as the identity on the abstract timestamp). -/
structure HealthDict where
  name : String
  status : String
  last_updated : Nat
  error_count : Nat
  warning_count : Nat
  last_error : Option String
  last_error_time : Option Nat
  fallback_active : Bool
  metadata : MetaVal

/-- `ComponentHealth.to_dict`.  The `metadata` entry is
`self.metadata or {}`: the record's own dict object when it is nonempty
(truthy), otherwise a fresh empty dict. -/
def to_dict (heap : Heap) (c : ComponentHealth) : HealthDict :=
  { name := c.name
    status := c.status.value
    last_updated := c.last_updated
    error_count := c.error_count
    warning_count := c.warning_count
    last_error := c.last_error
    last_error_time := c.last_error_time
    fallback_active := c.fallback_active
    metadata :=
      if (heapGetD heap c.metadata).isEmpty then MetaVal.copy []
      else MetaVal.ref c.metadata }

/-- State of a `SystemHealthMonitor` instance: the `_components` mapping (an
insertion-ordered dict), the stored `_system_status`, the `_initialized`
flag, and the heap of metadata dict objects. -/
structure MonitorState where
  components : List (String × ComponentHealth)
  system_status : HealthStatus
  initialized : Bool
  heap : Heap

/-- `SystemHealthMonitor.__init__` run on a fresh instance:
empty components, `_system_status = HEALTHY`. -/
def initState : MonitorState :=
  { components := [], system_status := .healthy, initialized := true, heap := [] }

/-- `_update_system_status`, as the pure function from the component map to
the new stored status: `UNKNOWN` when empty, `DEGRADED` when any component
is `FAILED` or `DEGRADED`, else `HEALTHY`. -/
def update_system_status (comps : List (String × ComponentHealth)) : HealthStatus :=
  if comps.isEmpty then .unknown
  else if comps.any (fun p => p.2.status == HealthStatus.failed) then .degraded
  else if comps.any (fun p => p.2.status == HealthStatus.degraded) then .degraded
  else .healthy

/-- `register_component`: overwrite the mapping entry with a fresh record
(status `HEALTHY`, zero counters, `metadata or {}` as a newly allocated dict
object).  Note: the source does not recompute the system status here. -/
def register_component (s : MonitorState) (name : String) (metadata : Option Dict)
    (now : Nat) : MonitorState :=
  let addr := s.heap.length
  { s with
    heap := s.heap ++ [dictOrEmpty metadata]
    components := dictInsert s.components name
      { name := name, status := .healthy, last_updated := now, error_count := 0,
        warning_count := 0, last_error := none, last_error_time := none,
        fallback_active := false, metadata := addr } }

/-- `mark_healthy`: auto-register when absent, then set status `HEALTHY`,
refresh the timestamp, clear `fallback_active`, merge metadata when truthy,
and recompute the system status. -/
def mark_healthy (s : MonitorState) (component : String) (metadata : Option Dict)
    (now : Nat) : MonitorState :=
  let s1 := if (s.components.lookup component).isSome then s
            else register_component s component metadata now
  match s1.components.lookup component with
  | none => s1
  | some health =>
    let health' := { health with
      status := HealthStatus.healthy, last_updated := now, fallback_active := false }
    let heap' := if dictTruthy metadata then
        heapSet s1.heap health.metadata
          (dictUpdate (heapGetD s1.heap health.metadata) (dictOrEmpty metadata))
      else s1.heap
    let comps' := dictInsert s1.components component health'
    { s1 with
      components := comps'
      heap := heap'
      system_status := update_system_status comps' }

/-- `mark_degraded`: auto-register when absent, then set status `DEGRADED`,
increment `warning_count`, record `last_error`/`last_error_time`, refresh the
timestamp, set `fallback_active` to the given flag, merge metadata when
truthy, and recompute the system status. -/
def mark_degraded (s : MonitorState) (component : String) (error_msg : Option String)
    (fallback_active : Bool) (metadata : Option Dict) (now : Nat) : MonitorState :=
  let s1 := if (s.components.lookup component).isSome then s
            else register_component s component metadata now
  match s1.components.lookup component with
  | none => s1
  | some health =>
    let health' := { health with
      status := HealthStatus.degraded, warning_count := health.warning_count + 1,
      last_error := error_msg, last_error_time := some now, last_updated := now,
      fallback_active := fallback_active }
    let heap' := if dictTruthy metadata then
        heapSet s1.heap health.metadata
          (dictUpdate (heapGetD s1.heap health.metadata) (dictOrEmpty metadata))
      else s1.heap
    let comps' := dictInsert s1.components component health'
    { s1 with
      components := comps'
      heap := heap'
      system_status := update_system_status comps' }

/-- `mark_failed`: auto-register when absent, then set status `FAILED`,
increment `error_count`, record `last_error`/`last_error_time`, refresh the
timestamp, merge metadata when truthy, and recompute the system status.
`fallback_active` is not touched. -/
def mark_failed (s : MonitorState) (component : String) (error_msg : Option String)
    (metadata : Option Dict) (now : Nat) : MonitorState :=
  let s1 := if (s.components.lookup component).isSome then s
            else register_component s component metadata now
  match s1.components.lookup component with
  | none => s1
  | some health =>
    let health' := { health with
      status := HealthStatus.failed, error_count := health.error_count + 1,
      last_error := error_msg, last_error_time := some now, last_updated := now }
    let heap' := if dictTruthy metadata then
        heapSet s1.heap health.metadata
          (dictUpdate (heapGetD s1.heap health.metadata) (dictOrEmpty metadata))
      else s1.heap
    let comps' := dictInsert s1.components component health'
    { s1 with
      components := comps'
      heap := heap'
      system_status := update_system_status comps' }

/-- `get_component_health`: return the stored record; when the name is
unseen, first insert a fresh record with status `UNKNOWN` and an empty
metadata dict.  The source does not recompute the system status here. -/
def get_component_health (s : MonitorState) (component : String) (now : Nat) :
    ComponentHealth × MonitorState :=
  match s.components.lookup component with
  | some health => (health, s)
  | none =>
    let health : ComponentHealth :=
      { name := component, status := .unknown, last_updated := now, error_count := 0,
        warning_count := 0, last_error := none, last_error_time := none,
        fallback_active := false, metadata := s.heap.length }
    (health,
     { s with
       heap := s.heap ++ [[]]
       components := dictInsert s.components component health })

/-- The metrics object returned by the collaborator's
`get_current_metrics()`.  Python floats are modelled over ℚ. -/
structure ResourceMetrics where
  cpu_percent : Rat
  memory_percent : Rat
  disk_usage_percent : Rat
  memory_available_mb : Rat

/-- One interaction with the resource-metrics collaborator inside the `try`
block of `get_all_health`: either both calls succeed, yielding the
`check_resource_health()` dict and the current metrics, or some step raises
an exception with message `str(e)`. -/
inductive CollabResult where
  | ok (resource_status : Dict) (metrics : ResourceMetrics)
  | err (e : String)

/-- Python `round(x, 1)` modelled over ℚ (round half away from the floor;
no claim depends on the rounding mode). -/
def pyRound1 (q : Rat) : Rat :=
  ((q * 10 + 1 / 2).floor : Rat) / 10

/-- Python `round(x, 0)` modelled over ℚ. -/
def pyRound0 (q : Rat) : Rat :=
  ((q + 1 / 2).floor : Rat)

/-- Python `resource_status.get('overall') == s`: true exactly when the key
is present with that string value (`==` between `None` or a non-string and a
string is `False`). -/
def overallIs (resource_status : Dict) (s : String) : Bool :=
  match resource_status.lookup "overall" with
  | some (Value.str t) => t == s
  | _ => false

/-- `get_all_health`: a dict of every component's `to_dict` snapshot, plus
the synthetic `"system_resources"` entry.  On collaborator success the
entry's status maps `critical`→`FAILED`, `warning`→`DEGRADED`, anything
else→`HEALTHY`, with the rounded metrics and the raw status dict as a newly
allocated metadata dict.  On collaborator failure the entry has status
`UNKNOWN`, `last_error = str(e)` and an error metadata dict.  The method
never propagates the failure. -/
def get_all_health (s : MonitorState) (collab : CollabResult) (now : Nat) :
    List (String × HealthDict) × MonitorState :=
  let health_data := s.components.map (fun p => (p.1, to_dict s.heap p.2))
  match collab with
  | .ok resource_status metrics =>
    let resource_health_status :=
      if overallIs resource_status "critical" then HealthStatus.failed
      else if overallIs resource_status "warning" then HealthStatus.degraded
      else HealthStatus.healthy
    let meta : Dict :=
      [("cpu_percent", Value.num (pyRound1 metrics.cpu_percent)),
       ("memory_percent", Value.num (pyRound1 metrics.memory_percent)),
       ("disk_percent", Value.num (pyRound1 metrics.disk_usage_percent)),
       ("memory_available_mb", Value.num (pyRound0 metrics.memory_available_mb)),
       ("resource_status", Value.vdict resource_status)]
    let heap' := s.heap ++ [meta]
    let resource_component : ComponentHealth :=
      { name := "system_resources", status := resource_health_status,
        last_updated := now, error_count := 0, warning_count := 0,
        last_error := none, last_error_time := none, fallback_active := false,
        metadata := s.heap.length }
    (dictInsert health_data "system_resources" (to_dict heap' resource_component),
     { s with heap := heap' })
  | .err e =>
    let heap' := s.heap ++ [[("error", Value.str "Resource monitoring unavailable")]]
    let resource_component : ComponentHealth :=
      { name := "system_resources", status := HealthStatus.unknown,
        last_updated := now, error_count := 0, warning_count := 0,
        last_error := some e, last_error_time := none, fallback_active := false,
        metadata := s.heap.length }
    (dictInsert health_data "system_resources" (to_dict heap' resource_component),
     { s with heap := heap' })

/-- The dictionary returned by `get_system_status`. -/
structure SystemStatusD where
  overall_status : String
  timestamp : Nat
  healthy_count : Nat
  degraded_count : Nat
  failed_count : Nat
  total : Nat
  components : List (String × HealthDict)

/-- `get_system_status`: counts by status over the stored component map, the
stored aggregate status string, and the full `get_all_health` snapshot
nested inside. -/
def get_system_status (s : MonitorState) (collab : CollabResult) (now : Nat) :
    SystemStatusD × MonitorState :=
  let r := get_all_health s collab now
  ({ overall_status := s.system_status.value
     timestamp := now
     healthy_count := s.components.countP (fun p => p.2.status == HealthStatus.healthy)
     degraded_count := s.components.countP (fun p => p.2.status == HealthStatus.degraded)
     failed_count := s.components.countP (fun p => p.2.status == HealthStatus.failed)
     total := s.components.length
     components := r.1 }, r.2)

/-- `is_system_healthy`. -/
def is_system_healthy (s : MonitorState) : Bool :=
  s.system_status == HealthStatus.healthy

/-- `is_system_degraded`. -/
def is_system_degraded (s : MonitorState) : Bool :=
  s.system_status == HealthStatus.degraded

/-- The two global handles: the class-level `SystemHealthMonitor._instance`
and the module-level `_health_monitor`. -/
structure SingletonState where
  instRef : Option MonitorState
  health_monitor : Option MonitorState

/-- `SystemHealthMonitor.__init__` (idempotent): a no-op on an initialized
instance, otherwise set up empty components and `HEALTHY` status. -/
def monitor_init (m : MonitorState) : MonitorState :=
  if m.initialized then m
  else { components := [], system_status := .healthy, initialized := true,
         heap := m.heap }

/-- `SystemHealthMonitor()` — `__new__` with double-checked locking followed
by `__init__`: reuse the stored `_instance` when present, else create a
fresh uninitialized object, store it, and initialize it. -/
def monitor_ctor (g : SingletonState) : MonitorState × SingletonState :=
  match g.instRef with
  | some m =>
    let m' := monitor_init m
    (m', { g with instRef := some m' })
  | none =>
    let m := monitor_init
      { components := [], system_status := .healthy, initialized := false, heap := [] }
    (m, { g with instRef := some m })

/-- `get_health_monitor`: lazily construct and cache the module-level
singleton. -/
def get_health_monitor (g : SingletonState) : MonitorState × SingletonState :=
  match g.health_monitor with
  | some m => (m, g)
  | none =>
    let r := monitor_ctor g
    (r.1, { r.2 with health_monitor := some r.1 })

/-- `reset`: clear all component records, restore `_system_status` to
`HEALTHY`, drop the `_initialized` flag, and null out both the class-level
`_instance` and the module-level `_health_monitor`. -/
def reset (s : MonitorState) (_g : SingletonState) : MonitorState × SingletonState :=
  ({ s with components := [], system_status := .healthy, initialized := false },
   { instRef := none, health_monitor := none })

/-- One public mutation/query of the registry (with the abstract timestamp
at which it runs). -/
inductive Op where
  | register (name : String) (metadata : Option Dict) (now : Nat)
  | markHealthy (name : String) (metadata : Option Dict) (now : Nat)
  | markDegraded (name : String) (error_msg : Option String) (fallback_active : Bool)
      (metadata : Option Dict) (now : Nat)
  | markFailed (name : String) (error_msg : Option String) (metadata : Option Dict)
      (now : Nat)
  | getComponent (name : String) (now : Nat)

/-- Apply one operation to the monitor state. -/
def applyOp (s : MonitorState) : Op → MonitorState
  | .register n md t => register_component s n md t
  | .markHealthy n md t => mark_healthy s n md t
  | .markDegraded n em fb md t => mark_degraded s n em fb md t
  | .markFailed n em md t => mark_failed s n em md t
  | .getComponent n t => (get_component_health s n t).2

/-- Run a sequence of public operations. -/
def runOps (s : MonitorState) (ops : List Op) : MonitorState :=
  ops.foldl applyOp s

/-- Whether an operation is an explicit `register_component` call. -/
def isRegisterOp : Op → Bool
  | .register .. => true
  | _ => false

/-- The stored `error_count` of a component, `0` when the name is
unregistered. -/
def errorCountOf (s : MonitorState) (c : String) : Nat :=
  match s.components.lookup c with
  | some h => h.error_count
  | none => 0

/-- The stored `warning_count` of a component, `0` when the name is
unregistered. -/
def warningCountOf (s : MonitorState) (c : String) : Nat :=
  match s.components.lookup c with
  | some h => h.warning_count
  | none => 0

/-- `AuditEventType` enum from `audit_logger.py`. -/
inductive AuditEventType where
  | auth_success
  | auth_failure
  | access_denied
  | config_change
  | phase_change
  | chaos_injection
  | api_access
  | admin_action
  | security_violation
deriving DecidableEq

/-- The enum's `.value` string encoding. -/
def AuditEventType.value : AuditEventType → String
  | .auth_success => "auth_success"
  | .auth_failure => "auth_failure"
  | .access_denied => "access_denied"
  | .config_change => "config_change"
  | .phase_change => "phase_change"
  | .chaos_injection => "chaos_injection"
  | .api_access => "api_access"
  | .admin_action => "admin_action"
  | .security_violation => "security_violation"

/-- The logging levels used by the audit logger (`logging.INFO`,
`logging.WARNING`, `logging.ERROR`). -/
inductive LogLevel where
  | info
  | warning
  | error
deriving DecidableEq

/-- `%(levelname)s` for each level. -/
def LogLevel.levelname : LogLevel → String
  | .info => "INFO"
  | .warning => "WARNING"
  | .error => "ERROR"

mutual
/-- Python `str`/`repr` of a metadata value, for `str(details)`.  The
quoting and escape sequences of Python `repr` are not reproduced; raw
characters of strings are kept as they are, which only makes the rendering
keep more newline characters than Python would. -/
def strValue : Value → String
  | .str s => s
  | .int n => toString n
  | .num q => toString q
  | .bool b => if b then "True" else "False"
  | .vdict entries => "\x7b" ++ strEntries entries ++ "\x7d"

/-- The comma-separated `key: value` items of a rendered dict. -/
def strEntries : List (String × Value) → String
  | [] => ""
  | [p] => p.1 ++ ": " ++ strValue p.2
  | p :: q :: rest => p.1 ++ ": " ++ strValue p.2 ++ ", " ++ strEntries (q :: rest)
end

/-- Python `str(details)` for a details dict. -/
def strDictPy (d : Dict) : String :=
  "\x7b" ++ strEntries d ++ "\x7d"

/-- Replace every occurrence of the character `a` by `b` (Python
`str.replace` with a one-character pattern). -/
def replaceChar (l : List Char) (a b : Char) : List Char :=
  l.map (fun c => if c = a then b else c)

/-- The `details_str` computed by `log_event`: `""` when `details` is absent
or empty (falsy), else `str(details).replace(chr(10), " ").replace(chr(13), " ")`. -/
def details_str_of (details : Option Dict) : List Char :=
  match details with
  | none => []
  | some d =>
    if d.isEmpty then []
    else replaceChar (replaceChar (strDictPy d).data (Char.ofNat 10) ' ') (Char.ofNat 13) ' '

/-- The audit formatter
`%(asctime)s - %(levelname)s - %(event_type)s - %(user)s - %(ip)s - %(resource)s - %(action)s - %(details)s`
applied to a record's fields. -/
def audit_format (asctime levelname event_type user ip resource action details : String) :
    String :=
  asctime ++ " - " ++ levelname ++ " - " ++ event_type ++ " - " ++ user ++ " - " ++
    ip ++ " - " ++ resource ++ " - " ++ action ++ " - " ++ details

/-- `AuditLogger.log_event`: build `details_str` and the `extra` fields and
emit one formatted line (`asctime` is the handler-supplied timestamp
rendering). -/
def log_event (asctime : String) (event_type : AuditEventType)
    (user ip resource action : String) (details : Option Dict) (level : LogLevel) :
    String :=
  audit_format asctime level.levelname event_type.value user ip resource action
    (String.mk (details_str_of details))

/-- `log_auth_success`. -/
def log_auth_success (asctime user ip method : String) : String :=
  log_event asctime .auth_success user ip "authentication" "login"
    (some [("method", Value.str method)]) .info

/-- `log_auth_failure`. -/
def log_auth_failure (asctime user ip reason : String) : String :=
  log_event asctime .auth_failure user ip "authentication" "login_attempt"
    (some [("reason", Value.str reason)]) .warning

/-- `log_access_denied`. -/
def log_access_denied (asctime user ip resource required_permission : String) : String :=
  log_event asctime .access_denied user ip resource "access_denied"
    (some [("required_permission", Value.str required_permission)]) .warning

/-- `log_config_change`. -/
def log_config_change (asctime user ip config_key : String)
    (old_value new_value : Value) : String :=
  log_event asctime .config_change user ip "configuration" "change"
    (some [("config_key", Value.str config_key),
           ("old_value", Value.str (strValue old_value)),
           ("new_value", Value.str (strValue new_value))]) .info

/-- `log_phase_change`. -/
def log_phase_change (asctime user ip old_phase new_phase : String) (force : Bool) :
    String :=
  log_event asctime .phase_change user ip "mission_phase" "change"
    (some [("old_phase", Value.str old_phase),
           ("new_phase", Value.str new_phase),
           ("force", Value.bool force)]) .info

/-- `log_chaos_injection`. -/
def log_chaos_injection (asctime user ip fault_type : String) (duration : Int) : String :=
  log_event asctime .chaos_injection user ip "chaos_engine" "inject_fault"
    (some [("fault_type", Value.str fault_type),
           ("duration_seconds", Value.int duration)]) .warning

/-- `log_api_access`. -/
def log_api_access (asctime user ip endpoint method : String) (status_code : Int) :
    String :=
  log_event asctime .api_access user ip endpoint method
    (some [("status_code", Value.int status_code)]) .info

/-- `log_admin_action`. -/
def log_admin_action (asctime user ip action : String) (details : Option Dict) : String :=
  log_event asctime .admin_action user ip "admin" action details .info

/-- `log_security_violation`: details are
`{"violation_type": violation_type, **(details or {})}`. -/
def log_security_violation (asctime user ip violation_type : String)
    (details : Option Dict) : String :=
  log_event asctime .security_violation user ip "security" "violation"
    (some (dictUpdate [("violation_type", Value.str violation_type)]
      (dictOrEmpty details))) .error

/-! ### Auto-registration helpers for the mark operations -/

/-- The record the mark operations read after their auto-registration step:
the stored record when present, otherwise the record freshly inserted by
`register_component`. -/
def preRecord (s : MonitorState) (n : String) (t : Nat) : ComponentHealth :=
  match s.components.lookup n with
  | some h => h
  | none =>
    { name := n, status := .healthy, last_updated := t, error_count := 0,
      warning_count := 0, last_error := none, last_error_time := none,
      fallback_active := false, metadata := s.heap.length }

/-- Sample state for witnesses: a registry holding one component `"x"`
registered with no metadata at time 0. -/
def sampleX : MonitorState := register_component initState "x" none 0

/-- The record stored for `"x"` in `sampleX`. -/
def sampleXRec : ComponentHealth :=
  { name := "x", status := .healthy, last_updated := 0, error_count := 0,
    warning_count := 0, last_error := none, last_error_time := none,
    fallback_active := false, metadata := 0 }

/-- Sample state for witnesses: a registry holding one component `"c"`
registered with metadata `{"a": 1}` at time 0. -/
def sampleC : MonitorState :=
  register_component initState "c" (some [("a", Value.int 1)]) 0

/-- The record stored for `"c"` in `sampleC`. -/
def sampleCRec : ComponentHealth :=
  { name := "c", status := .healthy, last_updated := 0, error_count := 0,
    warning_count := 0, last_error := none, last_error_time := none,
    fallback_active := false, metadata := 0 }

/-! ### Association-list and heap lemmas -/

theorem lookup_dictInsert {α : Type} (d : List (String × α)) (k c : String) (v : α) :
    List.lookup c (dictInsert d k v) = if c = k then some v else List.lookup c d := by
  induction d with
  | nil =>
    by_cases h : c = k
    · simp [dictInsert, List.lookup, beq_iff_eq, h]
    · simp [dictInsert, List.lookup, beq_false_of_ne h, h]
  | cons p rest ih =>
    obtain ⟨k', v'⟩ := p
    by_cases hk : k' = k
    · subst hk
      by_cases hc : c = k'
      · simp [dictInsert, List.lookup, beq_iff_eq, hc]
      · simp [dictInsert, List.lookup, beq_false_of_ne hc, hc]
    · by_cases hc : c = k'
      · subst hc
        simp [dictInsert, hk, List.lookup, Ne.symm hk]
      · simp [dictInsert, hk, List.lookup, beq_false_of_ne hc, hc, ih]

theorem lookup_eq_none_iff {α : Type} (d : List (String × α)) (k : String) :
    List.lookup k d = none ↔ k ∉ d.map Prod.fst := by
  induction d with
  | nil => simp [List.lookup]
  | cons p rest ih =>
    obtain ⟨k', v'⟩ := p
    by_cases h : k = k'
    · simp [List.lookup, beq_iff_eq, h]
    · simp [List.lookup, beq_false_of_ne h, h, ih]

theorem dictInsert_of_lookup_none {α : Type} {d : List (String × α)} {k : String}
    (v : α) (h : List.lookup k d = none) : dictInsert d k v = d ++ [(k, v)] := by
  induction d with
  | nil => simp [dictInsert]
  | cons p rest ih =>
    obtain ⟨k', v'⟩ := p
    by_cases hk : k' = k
    · subst hk
      simp [List.lookup] at h
    · rw [List.lookup, beq_false_of_ne (Ne.symm hk)] at h
      simp [dictInsert, hk, ih h]

theorem keys_dictInsert_of_isSome {α : Type} {d : List (String × α)} {k : String}
    (v : α) (h : (List.lookup k d).isSome) :
    (dictInsert d k v).map Prod.fst = d.map Prod.fst := by
  induction d with
  | nil => simp [List.lookup] at h
  | cons p rest ih =>
    obtain ⟨k', v'⟩ := p
    by_cases hk : k' = k
    · subst hk
      simp [dictInsert]
    · rw [List.lookup, beq_false_of_ne (Ne.symm hk)] at h
      simp [dictInsert, hk, ih h]

theorem nodup_keys_dictInsert {α : Type} {d : List (String × α)} (k : String) (v : α)
    (h : (d.map Prod.fst).Nodup) : ((dictInsert d k v).map Prod.fst).Nodup := by
  rcases hl : List.lookup k d with _ | w
  · rw [dictInsert_of_lookup_none v hl]
    simp only [List.map_append, List.map_cons, List.map_nil]
    rw [List.nodup_append]
    refine ⟨h, List.nodup_singleton k, ?_⟩
    intro a ha hb
    simp only [List.mem_singleton] at hb
    subst hb
    exact ((lookup_eq_none_iff d a).mp hl) ha
  · rw [keys_dictInsert_of_isSome v (by simp [hl])]
    exact h

theorem length_dictInsert_of_none {α : Type} {d : List (String × α)} {k : String}
    (v : α) (h : List.lookup k d = none) :
    (dictInsert d k v).length = d.length + 1 := by
  rw [dictInsert_of_lookup_none v h]
  simp

theorem lookup_map_snd {α β : Type} (f : α → β) (d : List (String × α)) (c : String) :
    List.lookup c (d.map (fun p => (p.1, f p.2))) = (List.lookup c d).map f := by
  induction d with
  | nil => simp [List.lookup]
  | cons p rest ih =>
    obtain ⟨k', v'⟩ := p
    by_cases h : c = k'
    · simp [List.lookup, beq_iff_eq, h]
    · simp [List.lookup, beq_false_of_ne h, h, ih]

theorem dictUpdate_nil (d : Dict) : dictUpdate d [] = d := rfl

theorem lookup_dictUpdate (M : Dict) (N : Dict) (hN : (N.map Prod.fst).Nodup)
    (k : String) :
    List.lookup k (dictUpdate M N) = (List.lookup k N).or (List.lookup k M) := by
  induction N generalizing M with
  | nil => simp [dictUpdate, List.lookup]
  | cons p rest ih =>
    obtain ⟨k', v'⟩ := p
    simp only [List.map_cons, List.nodup_cons] at hN
    have step : dictUpdate M ((k', v') :: rest) = dictUpdate (dictInsert M k' v') rest := rfl
    rw [step, ih (dictInsert M k' v') hN.2]
    by_cases h : k = k'
    · subst h
      have hrest : List.lookup k rest = none := by
        rw [lookup_eq_none_iff]
        exact hN.1
      simp [List.lookup, hrest, lookup_dictInsert]
    · rw [List.lookup, beq_false_of_ne h, lookup_dictInsert, if_neg h]

theorem heapGetD_heapSet_self {h : Heap} {a : Nat} (d : Dict) (ha : a < h.length) :
    heapGetD (heapSet h a d) a = d := by
  induction h generalizing a with
  | nil => simp at ha
  | cons x rest ih =>
    cases a with
    | zero => simp [heapGetD, heapSet]
    | succ n =>
      simp only [List.length_cons, Nat.succ_lt_succ_iff] at ha
      simpa [heapGetD, heapSet] using ih ha

theorem auto_lookup (s : MonitorState) (n : String) (md : Option Dict) (t : Nat) :
    ((if (s.components.lookup n).isSome then s
      else register_component s n md t).components.lookup n) = some (preRecord s n t) := by
  rcases hl : s.components.lookup n with _ | h
  · simp [hl, preRecord, register_component, lookup_dictInsert]
  · simp [hl, preRecord]

theorem lookup_auto_ne {s : MonitorState} {n c : String} (md : Option Dict) (t : Nat)
    (h : c ≠ n) :
    ((if (s.components.lookup n).isSome then s
      else register_component s n md t).components.lookup c) = s.components.lookup c := by
  by_cases hs : (s.components.lookup n).isSome
  · simp [hs]
  · simp [hs, register_component, lookup_dictInsert, h]

theorem mark_healthy_eq (s : MonitorState) (n : String) (md : Option Dict) (t : Nat) :
    mark_healthy s n md t =
      (let s1 := if (s.components.lookup n).isSome then s
                 else register_component s n md t
       let health := preRecord s n t
       let health' := { health with
         status := HealthStatus.healthy, last_updated := t, fallback_active := false }
       let heap' := if dictTruthy md then
           heapSet s1.heap health.metadata
             (dictUpdate (heapGetD s1.heap health.metadata) (dictOrEmpty md))
         else s1.heap
       let comps' := dictInsert s1.components n health'
       { s1 with
         components := comps'
         heap := heap'
         system_status := update_system_status comps' }) := by
  simp only [mark_healthy]
  rw [auto_lookup]

theorem mark_degraded_eq (s : MonitorState) (n : String) (em : Option String)
    (fb : Bool) (md : Option Dict) (t : Nat) :
    mark_degraded s n em fb md t =
      (let s1 := if (s.components.lookup n).isSome then s
                 else register_component s n md t
       let health := preRecord s n t
       let health' := { health with
         status := HealthStatus.degraded, warning_count := health.warning_count + 1,
         last_error := em, last_error_time := some t, last_updated := t,
         fallback_active := fb }
       let heap' := if dictTruthy md then
           heapSet s1.heap health.metadata
             (dictUpdate (heapGetD s1.heap health.metadata) (dictOrEmpty md))
         else s1.heap
       let comps' := dictInsert s1.components n health'
       { s1 with
         components := comps'
         heap := heap'
         system_status := update_system_status comps' }) := by
  simp only [mark_degraded]
  rw [auto_lookup]

theorem mark_failed_eq (s : MonitorState) (n : String) (em : Option String)
    (md : Option Dict) (t : Nat) :
    mark_failed s n em md t =
      (let s1 := if (s.components.lookup n).isSome then s
                 else register_component s n md t
       let health := preRecord s n t
       let health' := { health with
         status := HealthStatus.failed, error_count := health.error_count + 1,
         last_error := em, last_error_time := some t, last_updated := t }
       let heap' := if dictTruthy md then
           heapSet s1.heap health.metadata
             (dictUpdate (heapGetD s1.heap health.metadata) (dictOrEmpty md))
         else s1.heap
       let comps' := dictInsert s1.components n health'
       { s1 with
         components := comps'
         heap := heap'
         system_status := update_system_status comps' }) := by
  simp only [mark_failed]
  rw [auto_lookup]

theorem lookup_mark_healthy_self (s : MonitorState) (n : String) (md : Option Dict)
    (t : Nat) :
    (mark_healthy s n md t).components.lookup n =
      some { preRecord s n t with
        status := HealthStatus.healthy, last_updated := t, fallback_active := false } := by
  rw [mark_healthy_eq]
  simp [lookup_dictInsert]

theorem lookup_mark_degraded_self (s : MonitorState) (n : String) (em : Option String)
    (fb : Bool) (md : Option Dict) (t : Nat) :
    (mark_degraded s n em fb md t).components.lookup n =
      some { preRecord s n t with
        status := HealthStatus.degraded,
        warning_count := (preRecord s n t).warning_count + 1,
        last_error := em, last_error_time := some t, last_updated := t,
        fallback_active := fb } := by
  rw [mark_degraded_eq]
  simp [lookup_dictInsert]

theorem lookup_mark_failed_self (s : MonitorState) (n : String) (em : Option String)
    (md : Option Dict) (t : Nat) :
    (mark_failed s n em md t).components.lookup n =
      some { preRecord s n t with
        status := HealthStatus.failed,
        error_count := (preRecord s n t).error_count + 1,
        last_error := em, last_error_time := some t, last_updated := t } := by
  rw [mark_failed_eq]
  simp [lookup_dictInsert]

theorem lookup_mark_healthy_ne {s : MonitorState} {n c : String} (md : Option Dict)
    (t : Nat) (h : c ≠ n) :
    (mark_healthy s n md t).components.lookup c = s.components.lookup c := by
  rw [mark_healthy_eq]
  simp only [lookup_dictInsert, if_neg h]
  exact lookup_auto_ne md t h

theorem lookup_mark_degraded_ne {s : MonitorState} {n c : String} (em : Option String)
    (fb : Bool) (md : Option Dict) (t : Nat) (h : c ≠ n) :
    (mark_degraded s n em fb md t).components.lookup c = s.components.lookup c := by
  rw [mark_degraded_eq]
  simp only [lookup_dictInsert, if_neg h]
  exact lookup_auto_ne md t h

theorem lookup_mark_failed_ne {s : MonitorState} {n c : String} (em : Option String)
    (md : Option Dict) (t : Nat) (h : c ≠ n) :
    (mark_failed s n em md t).components.lookup c = s.components.lookup c := by
  rw [mark_failed_eq]
  simp only [lookup_dictInsert, if_neg h]
  exact lookup_auto_ne md t h

theorem preRecord_error_count (s : MonitorState) (n : String) (t : Nat) :
    (preRecord s n t).error_count = errorCountOf s n := by
  rcases hl : s.components.lookup n with _ | h <;> simp [preRecord, errorCountOf, hl]

theorem preRecord_warning_count (s : MonitorState) (n : String) (t : Nat) :
    (preRecord s n t).warning_count = warningCountOf s n := by
  rcases hl : s.components.lookup n with _ | h <;> simp [preRecord, warningCountOf, hl]

theorem dictOrEmpty_of_not_truthy {md : Option Dict} (h : dictTruthy md = false) :
    dictOrEmpty md = [] := by
  match md with
  | none => rfl
  | some d =>
    simp only [dictTruthy, Bool.not_eq_false'] at h
    simp [dictOrEmpty, List.isEmpty_iff.mp h]

theorem lookup_get_component_health (s : MonitorState) (n : String) (t : Nat)
    (c : String) :
    (get_component_health s n t).2.components.lookup c =
      if c = n then some (get_component_health s n t).1
      else s.components.lookup c := by
  unfold get_component_health
  rcases hl : s.components.lookup n with _ | h
  · simp [lookup_dictInsert]
  · by_cases hc : c = n <;> simp [hc, hl]

theorem errorCountOf_mark_healthy_self (s : MonitorState) (n : String)
    (md : Option Dict) (t : Nat) :
    errorCountOf (mark_healthy s n md t) n = errorCountOf s n := by
  unfold errorCountOf
  rw [lookup_mark_healthy_self]
  simpa [errorCountOf] using preRecord_error_count s n t

theorem warningCountOf_mark_healthy_self (s : MonitorState) (n : String)
    (md : Option Dict) (t : Nat) :
    warningCountOf (mark_healthy s n md t) n = warningCountOf s n := by
  unfold warningCountOf
  rw [lookup_mark_healthy_self]
  simpa [warningCountOf] using preRecord_warning_count s n t

theorem errorCountOf_mark_degraded_self (s : MonitorState) (n : String)
    (em : Option String) (fb : Bool) (md : Option Dict) (t : Nat) :
    errorCountOf (mark_degraded s n em fb md t) n = errorCountOf s n := by
  unfold errorCountOf
  rw [lookup_mark_degraded_self]
  simpa [errorCountOf] using preRecord_error_count s n t

theorem warningCountOf_mark_degraded_self (s : MonitorState) (n : String)
    (em : Option String) (fb : Bool) (md : Option Dict) (t : Nat) :
    warningCountOf (mark_degraded s n em fb md t) n = warningCountOf s n + 1 := by
  unfold warningCountOf
  rw [lookup_mark_degraded_self]
  simpa [warningCountOf] using preRecord_warning_count s n t

theorem errorCountOf_mark_failed_self (s : MonitorState) (n : String)
    (em : Option String) (md : Option Dict) (t : Nat) :
    errorCountOf (mark_failed s n em md t) n = errorCountOf s n + 1 := by
  unfold errorCountOf
  rw [lookup_mark_failed_self]
  simpa [errorCountOf] using preRecord_error_count s n t

theorem warningCountOf_mark_failed_self (s : MonitorState) (n : String)
    (em : Option String) (md : Option Dict) (t : Nat) :
    warningCountOf (mark_failed s n em md t) n = warningCountOf s n := by
  unfold warningCountOf
  rw [lookup_mark_failed_self]
  simpa [warningCountOf] using preRecord_warning_count s n t

theorem counters_get_component_self (s : MonitorState) (n : String) (t : Nat) :
    errorCountOf (get_component_health s n t).2 n = errorCountOf s n ∧
    warningCountOf (get_component_health s n t).2 n = warningCountOf s n := by
  unfold errorCountOf warningCountOf
  rw [lookup_get_component_health, if_pos rfl]
  unfold get_component_health
  rcases hl : s.components.lookup n with _ | h <;> simp [hl]

theorem counters_applyOp_mono (s : MonitorState) (o : Op)
    (ho : isRegisterOp o = false) (c : String) :
    errorCountOf s c ≤ errorCountOf (applyOp s o) c ∧
    warningCountOf s c ≤ warningCountOf (applyOp s o) c := by
  cases o with
  | register n md t => simp [isRegisterOp] at ho
  | markHealthy n md t =>
    by_cases h : c = n
    · subst h
      rw [applyOp, errorCountOf_mark_healthy_self, warningCountOf_mark_healthy_self]
      exact ⟨le_refl _, le_refl _⟩
    · rw [applyOp]
      unfold errorCountOf warningCountOf
      rw [lookup_mark_healthy_ne md t h]
      exact ⟨le_refl _, le_refl _⟩
  | markDegraded n em fb md t =>
    by_cases h : c = n
    · subst h
      rw [applyOp, errorCountOf_mark_degraded_self, warningCountOf_mark_degraded_self]
      exact ⟨le_refl _, Nat.le_succ _⟩
    · rw [applyOp]
      unfold errorCountOf warningCountOf
      rw [lookup_mark_degraded_ne em fb md t h]
      exact ⟨le_refl _, le_refl _⟩
  | markFailed n em md t =>
    by_cases h : c = n
    · subst h
      rw [applyOp, errorCountOf_mark_failed_self, warningCountOf_mark_failed_self]
      exact ⟨Nat.le_succ _, le_refl _⟩
    · rw [applyOp]
      unfold errorCountOf warningCountOf
      rw [lookup_mark_failed_ne em md t h]
      exact ⟨le_refl _, le_refl _⟩
  | getComponent n t =>
    by_cases h : c = n
    · subst h
      rw [applyOp]
      rw [(counters_get_component_self s c t).1, (counters_get_component_self s c t).2]
      exact ⟨le_refl _, le_refl _⟩
    · rw [applyOp]
      unfold errorCountOf warningCountOf
      rw [lookup_get_component_health, if_neg h]
      exact ⟨le_refl _, le_refl _⟩

theorem lookup_get_all_health (s : MonitorState) (collab : CollabResult) (now : Nat)
    {c : String} (hc : c ≠ "system_resources") :
    List.lookup c (get_all_health s collab now).1 =
      (s.components.lookup c).map (to_dict s.heap) := by
  cases collab <;>
    (simp only [get_all_health]
     rw [lookup_dictInsert, if_neg hc, lookup_map_snd])

theorem nodup_keys_applyOp (s : MonitorState) (o : Op)
    (h : (s.components.map Prod.fst).Nodup) :
    (((applyOp s o).components.map Prod.fst).Nodup) := by
  cases o with
  | register n md t => exact nodup_keys_dictInsert n _ h
  | markHealthy n md t =>
    rw [applyOp, mark_healthy_eq]
    by_cases hs : (s.components.lookup n).isSome
    · simp only [if_pos hs]
      exact nodup_keys_dictInsert n _ h
    · simp only [if_neg hs]
      exact nodup_keys_dictInsert n _ (nodup_keys_dictInsert n _ h)
  | markDegraded n em fb md t =>
    rw [applyOp, mark_degraded_eq]
    by_cases hs : (s.components.lookup n).isSome
    · simp only [if_pos hs]
      exact nodup_keys_dictInsert n _ h
    · simp only [if_neg hs]
      exact nodup_keys_dictInsert n _ (nodup_keys_dictInsert n _ h)
  | markFailed n em md t =>
    rw [applyOp, mark_failed_eq]
    by_cases hs : (s.components.lookup n).isSome
    · simp only [if_pos hs]
      exact nodup_keys_dictInsert n _ h
    · simp only [if_neg hs]
      exact nodup_keys_dictInsert n _ (nodup_keys_dictInsert n _ h)
  | getComponent n t =>
    rw [applyOp]
    unfold get_component_health
    rcases hl : s.components.lookup n with _ | w
    · exact nodup_keys_dictInsert n _ h
    · exact h

/-! ### Claim theorems -/

/-- C1 (counterexample): the claim is false on the code.  A freshly
constructed registry stores `HEALTHY` (set by `__init__`), while the §4.2
policy applied to its empty component map yields `UNKNOWN`; and after
`get_component_health` auto-registers an unseen name (the only component,
with status `UNKNOWN`), the stored aggregate still reports `HEALTHY`,
because neither `__init__` nor the auto-registration recomputes the
aggregate. -/
theorem C1_counterexample :
    initState.system_status = HealthStatus.healthy ∧
    update_system_status initState.components = HealthStatus.unknown ∧
    HealthStatus.healthy ≠ HealthStatus.unknown ∧
    ((get_component_health initState "never_seen" 0).2.components.map
        (fun p => (p.1, p.2.status)) = [("never_seen", HealthStatus.unknown)] ∧
     (get_component_health initState "never_seen" 0).2.system_status =
       HealthStatus.healthy) := by
  decide

/-- C1 (amended): after each `mark_healthy` / `mark_degraded` /
`mark_failed` call the stored aggregate equals `_update_system_status`
applied to the current component map (`DEGRADED` when any component is
`FAILED` or `DEGRADED`, else `HEALTHY`; the empty case cannot arise after a
mark because marking auto-registers).  Initialization, `register_component`
and `get_component_health` auto-registration do not recompute the
aggregate, and components with status `UNKNOWN` count as healthy for the
aggregation. -/
theorem C1_aggregate_after_marks (s : MonitorState) (c : String) (em : Option String)
    (fb : Bool) (md : Option Dict) (now : Nat) :
    (mark_healthy s c md now).system_status =
      update_system_status (mark_healthy s c md now).components ∧
    (mark_degraded s c em fb md now).system_status =
      update_system_status (mark_degraded s c em fb md now).components ∧
    (mark_failed s c em md now).system_status =
      update_system_status (mark_failed s c em md now).components := by
  refine ⟨?_, ?_, ?_⟩
  · rw [mark_healthy_eq]
  · rw [mark_degraded_eq]
  · rw [mark_failed_eq]

/-- C8: `reset` empties the component map and restores the stored status to
`HEALTHY`, so `get_system_status` reports `"healthy"` with zero total; it
nulls both singleton handles, and the next `get_health_monitor` call
constructs a fresh, initialized instance with no components. -/
theorem C8_reset (s : MonitorState) (g : SingletonState) (collab : CollabResult)
    (now : Nat) :
    (reset s g).1.components = [] ∧
    (reset s g).1.system_status = HealthStatus.healthy ∧
    (get_system_status (reset s g).1 collab now).1.overall_status = "healthy" ∧
    (get_system_status (reset s g).1 collab now).1.total = 0 ∧
    (reset s g).2.instRef = none ∧
    (reset s g).2.health_monitor = none ∧
    (get_health_monitor (reset s g).2).1.components = [] ∧
    (get_health_monitor (reset s g).2).1.system_status = HealthStatus.healthy := by
  exact ⟨rfl, rfl, rfl, rfl, rfl, rfl, rfl, rfl⟩

/-- C5: for a pre-existing component, `mark_failed` sets status `FAILED`,
increments `error_count` by exactly one, records `last_error` and
`last_error_time`, refreshes `last_updated`, merges the supplied metadata
into the record's metadata dict, and leaves `fallback_active` (as well as
the name and `warning_count`) exactly as before. -/
theorem C5_mark_failed_effect (s : MonitorState) (c : String) (em : Option String)
    (md : Option Dict) (now : Nat) (rec : ComponentHealth)
    (h : s.components.lookup c = some rec)
    (hb : rec.metadata < s.heap.length) :
    (mark_failed s c em md now).components.lookup c =
      some { rec with
        status := HealthStatus.failed, error_count := rec.error_count + 1,
        last_error := em, last_error_time := some now, last_updated := now } ∧
    heapGetD (mark_failed s c em md now).heap rec.metadata =
      dictUpdate (heapGetD s.heap rec.metadata) (dictOrEmpty md) := by
  have hpre : preRecord s c now = rec := by simp [preRecord, h]
  constructor
  · rw [lookup_mark_failed_self, hpre]
  · rw [mark_failed_eq]
    simp only [h, Option.isSome_some, if_true, hpre]
    rcases ht : dictTruthy md with _ | _
    · rw [dictOrEmpty_of_not_truthy ht, dictUpdate_nil]
      simp
    · rw [if_pos rfl]
      exact heapGetD_heapSet_self _ hb

/-- C5 witness: a registry holding `"x"` with `fallback_active = false` and
zero counters; after `mark_failed` the record is failed with
`error_count = 1` and `fallback_active` still `false`. -/
theorem C5_witness :
    (sampleX.components.lookup "x" = some sampleXRec ∧
     sampleXRec.metadata < sampleX.heap.length) ∧
    ((mark_failed sampleX "x" (some "e") (some [("k", Value.int 2)]) 5).components.lookup "x" =
       some { sampleXRec with
         status := HealthStatus.failed, error_count := sampleXRec.error_count + 1,
         last_error := some "e", last_error_time := some 5, last_updated := 5 } ∧
     heapGetD (mark_failed sampleX "x" (some "e") (some [("k", Value.int 2)]) 5).heap
         sampleXRec.metadata =
       dictUpdate (heapGetD sampleX.heap sampleXRec.metadata)
         (dictOrEmpty (some [("k", Value.int 2)]))) :=
  ⟨⟨rfl, by decide⟩,
   C5_mark_failed_effect sampleX "x" (some "e") (some [("k", Value.int 2)]) 5
     sampleXRec rfl (by decide)⟩

/-- C7: for a pre-existing component, `mark_healthy` sets status `HEALTHY`,
refreshes the timestamp, clears `fallback_active`, and merges the supplied
metadata `N` into the stored metadata: keys of `N` take the value from `N`,
keys not in `N` keep their stored value. -/
theorem C7_mark_healthy_merge (s : MonitorState) (c : String) (N : Dict) (now : Nat)
    (rec : ComponentHealth)
    (h : s.components.lookup c = some rec)
    (hb : rec.metadata < s.heap.length)
    (hN : (N.map Prod.fst).Nodup) :
    (mark_healthy s c (some N) now).components.lookup c =
      some { rec with
        status := HealthStatus.healthy, last_updated := now,
        fallback_active := false } ∧
    ∀ k, List.lookup k (heapGetD (mark_healthy s c (some N) now).heap rec.metadata) =
      (List.lookup k N).or (List.lookup k (heapGetD s.heap rec.metadata)) := by
  have hpre : preRecord s c now = rec := by simp [preRecord, h]
  constructor
  · rw [lookup_mark_healthy_self, hpre]
  · intro k
    rw [mark_healthy_eq]
    simp only [h, Option.isSome_some, if_true, hpre]
    rcases ht : dictTruthy (some N) with _ | _
    · have hNnil : N = [] := by
        simp only [dictTruthy, Bool.not_eq_false'] at ht
        exact List.isEmpty_iff.mp ht
      subst hNnil
      simp [List.lookup]
    · rw [if_pos rfl, heapGetD_heapSet_self _ hb]
      exact lookup_dictUpdate _ N hN k

/-- C7 witness: the spec's own example — `register("c", \x7b"a": 1\x7d)` then
`markHealthy("c", \x7b"b": 2\x7d)` yields metadata `\x7b"a": 1, "b": 2\x7d`. -/
theorem C7_witness :
    (sampleC.components.lookup "c" = some sampleCRec ∧
     sampleCRec.metadata < sampleC.heap.length ∧
     ((([("b", Value.int 2)] : Dict)).map Prod.fst).Nodup) ∧
    List.lookup "a"
        (heapGetD (mark_healthy sampleC "c" (some [("b", Value.int 2)]) 1).heap
          sampleCRec.metadata) = some (Value.int 1) ∧
    List.lookup "b"
        (heapGetD (mark_healthy sampleC "c" (some [("b", Value.int 2)]) 1).heap
          sampleCRec.metadata) = some (Value.int 2) := by
  refine ⟨⟨rfl, by decide, by decide⟩, ?_, ?_⟩
  · rw [(C7_mark_healthy_merge sampleC "c" [("b", Value.int 2)] 1 sampleCRec rfl
      (by decide) (by decide)).2 "a"]
    rfl
  · rw [(C7_mark_healthy_merge sampleC "c" [("b", Value.int 2)] 1 sampleCRec rfl
      (by decide) (by decide)).2 "b"]
    rfl

/-- C3 (counterexample): the claim is false on the code.  After
`register("c", \x7b"a": 1\x7d)`, the snapshot returned by `get_all_health`
carries, under `"c"`, a reference to the very metadata dict object stored in
the registry (address 0), and writing `"b": 2` through that reference
changes the registry record's own metadata view. -/
theorem C3_counterexample :
    ((List.lookup "c" (get_all_health sampleC (CollabResult.err "boom") 1).1).map
        HealthDict.metadata = some (MetaVal.ref 0)) ∧
    ((sampleC.components.lookup "c").map ComponentHealth.metadata = some 0) ∧
    heapGetD
        (heapSet (get_all_health sampleC (CollabResult.err "boom") 1).2.heap 0
          (dictInsert
            (heapGetD (get_all_health sampleC (CollabResult.err "boom") 1).2.heap 0)
            "b" (Value.int 2)))
        0 ≠
      heapGetD sampleC.heap 0 := by
  refine ⟨rfl, rfl, fun hEq => ?_⟩
  exact absurd (congrArg List.length hEq) (by decide)

/-- C3 (amended): the top-level snapshot mapping returned by
`get_all_health` is fresh, but each entry's nested metadata mapping is the
registry record's own dict object whenever the stored metadata is nonempty
(a fresh empty dict is returned only for empty stored metadata), so
mutating a returned nonempty metadata mapping mutates the registry's stored
record. -/
theorem C3_snapshot_shares_metadata (s : MonitorState) (collab : CollabResult)
    (now : Nat) (c : String) (rec : ComponentHealth)
    (h : s.components.lookup c = some rec)
    (hc : c ≠ "system_resources")
    (hm : (heapGetD s.heap rec.metadata).isEmpty = false) :
    List.lookup c (get_all_health s collab now).1 = some (to_dict s.heap rec) ∧
    (to_dict s.heap rec).metadata = MetaVal.ref rec.metadata := by
  constructor
  · rw [lookup_get_all_health s collab now hc, h]
    rfl
  · simp [to_dict, hm]

/-- C3 witness: the sharing theorem applied to the `sampleC` registry. -/
theorem C3_witness :
    (sampleC.components.lookup "c" = some sampleCRec ∧
     ("c" : String) ≠ "system_resources" ∧
     (heapGetD sampleC.heap sampleCRec.metadata).isEmpty = false) ∧
    (List.lookup "c" (get_all_health sampleC (CollabResult.err "x") 1).1 =
       some (to_dict sampleC.heap sampleCRec) ∧
     (to_dict sampleC.heap sampleCRec).metadata = MetaVal.ref sampleCRec.metadata) :=
  ⟨⟨rfl, by decide, rfl⟩,
   C3_snapshot_shares_metadata sampleC (CollabResult.err "x") 1 "c" sampleCRec
     rfl (by decide) rfl⟩

/-- C4: `get_all_health` is total (never raises).  When the collaborator
fails, the snapshot still contains a `"system_resources"` entry with status
`"unknown"` and `last_error` holding the failure reason; when it succeeds,
the entry's status is the mapping ok→healthy, warning→degraded,
critical→failed of the `overall` verdict. -/
theorem C4_resource_entry (s : MonitorState) (now : Nat) :
    (∀ e : String,
      (List.lookup "system_resources"
          (get_all_health s (CollabResult.err e) now).1).map HealthDict.status =
        some "unknown" ∧
      (List.lookup "system_resources"
          (get_all_health s (CollabResult.err e) now).1).map HealthDict.last_error =
        some (some e)) ∧
    (∀ (rs : Dict) (m : ResourceMetrics),
      (rs.lookup "overall" = some (Value.str "ok") →
        (List.lookup "system_resources"
            (get_all_health s (CollabResult.ok rs m) now).1).map HealthDict.status =
          some "healthy") ∧
      (rs.lookup "overall" = some (Value.str "warning") →
        (List.lookup "system_resources"
            (get_all_health s (CollabResult.ok rs m) now).1).map HealthDict.status =
          some "degraded") ∧
      (rs.lookup "overall" = some (Value.str "critical") →
        (List.lookup "system_resources"
            (get_all_health s (CollabResult.ok rs m) now).1).map HealthDict.status =
          some "failed")) := by
  constructor
  · intro e
    constructor <;>
      (simp only [get_all_health]
       rw [lookup_dictInsert, if_pos rfl]
       rfl)
  · intro rs m
    refine ⟨fun h => ?_, fun h => ?_, fun h => ?_⟩ <;>
      (simp only [get_all_health, overallIs, h]
       rw [lookup_dictInsert, if_pos rfl]
       rfl)

/-- C4 witness: the failure case, and the success case at a `critical`
verdict. -/
theorem C4_witness :
    (([("overall", Value.str "critical")] : Dict).lookup "overall" =
       some (Value.str "critical")) ∧
    (List.lookup "system_resources"
        (get_all_health initState (CollabResult.err "boom") 0).1).map
      HealthDict.status = some "unknown" ∧
    (List.lookup "system_resources"
        (get_all_health initState (CollabResult.err "boom") 0).1).map
      HealthDict.last_error = some (some "boom") ∧
    (List.lookup "system_resources"
        (get_all_health initState
          (CollabResult.ok [("overall", Value.str "critical")]
            { cpu_percent := 0, memory_percent := 0, disk_usage_percent := 0,
              memory_available_mb := 0 }) 0).1).map
      HealthDict.status = some "failed" :=
  ⟨rfl, ((C4_resource_entry initState 0).1 "boom").1,
   ((C4_resource_entry initState 0).1 "boom").2,
   ((C4_resource_entry initState 0).2 [("overall", Value.str "critical")]
     { cpu_percent := 0, memory_percent := 0, disk_usage_percent := 0,
       memory_available_mb := 0 }).2.2 rfl⟩

/-- C10: when no component named `"system_resources"` is stored, the
`components` snapshot nested in `get_system_status` has exactly
`total + 1` entries (the synthetic entry is included in the snapshot), while
the healthy/degraded/failed/total counts are computed from the stored
component map only. -/
theorem C10_snapshot_counts (s : MonitorState) (collab : CollabResult) (now : Nat)
    (h : s.components.lookup "system_resources" = none) :
    (get_system_status s collab now).1.components.length =
      (get_system_status s collab now).1.total + 1 ∧
    (get_system_status s collab now).1.total = s.components.length ∧
    (get_system_status s collab now).1.healthy_count =
      s.components.countP (fun p => p.2.status == HealthStatus.healthy) ∧
    (get_system_status s collab now).1.degraded_count =
      s.components.countP (fun p => p.2.status == HealthStatus.degraded) ∧
    (get_system_status s collab now).1.failed_count =
      s.components.countP (fun p => p.2.status == HealthStatus.failed) := by
  refine ⟨?_, rfl, rfl, rfl, rfl⟩
  have hmap : List.lookup "system_resources"
      (s.components.map (fun p => (p.1, to_dict s.heap p.2))) = none := by
    rw [lookup_map_snd, h]
    rfl
  show (get_all_health s collab now).1.length = s.components.length + 1
  cases collab <;>
    (simp only [get_all_health]
     rw [length_dictInsert_of_none _ hmap, List.length_map])

/-- C10 witness: a registry holding the single component `"x"`. -/
theorem C10_witness :
    sampleX.components.lookup "system_resources" = none ∧
    ((get_system_status sampleX (CollabResult.err "x") 1).1.components.length =
       (get_system_status sampleX (CollabResult.err "x") 1).1.total + 1 ∧
     (get_system_status sampleX (CollabResult.err "x") 1).1.total =
       sampleX.components.length ∧
     (get_system_status sampleX (CollabResult.err "x") 1).1.healthy_count =
       sampleX.components.countP (fun p => p.2.status == HealthStatus.healthy) ∧
     (get_system_status sampleX (CollabResult.err "x") 1).1.degraded_count =
       sampleX.components.countP (fun p => p.2.status == HealthStatus.degraded) ∧
     (get_system_status sampleX (CollabResult.err "x") 1).1.failed_count =
       sampleX.components.countP (fun p => p.2.status == HealthStatus.failed)) :=
  ⟨rfl, C10_snapshot_counts sampleX (CollabResult.err "x") 1 rfl⟩

/-- C2 (counterexample): the claim is false on the code.  `register_component`
called again on an already-registered name replaces the record with a fresh
one, resetting `error_count` to zero: after `markFailed("x")` the count is 1,
and after a subsequent `register("x")` it is 0 — a decrease without any
registry reset. -/
theorem C2_counterexample :
    errorCountOf (runOps initState [Op.markFailed "x" none none 0]) "x" = 1 ∧
    errorCountOf (runOps initState
      [Op.markFailed "x" none none 0, Op.register "x" none 1]) "x" = 0 := by
  exact ⟨rfl, rfl⟩

/-- C2 (amended): under every sequence of `markHealthy`, `markDegraded`,
`markFailed` and `getComponentHealth` operations (no explicit
`register_component` call), `error_count` and `warning_count` never
decrease; `mark_failed` increments `error_count` by exactly 1 leaving
`warning_count` unchanged, and `mark_degraded` increments `warning_count`
by exactly 1 leaving `error_count` unchanged.  Re-registration, however,
resets both counters (see the counterexample), as does a full registry
reset. -/
theorem C2_counters_monotone :
    (∀ (ops : List Op), (∀ o ∈ ops, isRegisterOp o = false) →
      ∀ (s : MonitorState) (c : String),
        errorCountOf s c ≤ errorCountOf (runOps s ops) c ∧
        warningCountOf s c ≤ warningCountOf (runOps s ops) c) ∧
    (∀ (s : MonitorState) (c : String) (em : Option String) (md : Option Dict)
        (t : Nat),
      errorCountOf (mark_failed s c em md t) c = errorCountOf s c + 1 ∧
      warningCountOf (mark_failed s c em md t) c = warningCountOf s c) ∧
    (∀ (s : MonitorState) (c : String) (em : Option String) (fb : Bool)
        (md : Option Dict) (t : Nat),
      warningCountOf (mark_degraded s c em fb md t) c = warningCountOf s c + 1 ∧
      errorCountOf (mark_degraded s c em fb md t) c = errorCountOf s c) := by
  refine ⟨?_, ?_, ?_⟩
  · intro ops
    induction ops with
    | nil => exact fun _ s c => ⟨le_refl _, le_refl _⟩
    | cons o rest ih =>
      intro hall s c
      have h1 := counters_applyOp_mono s o (hall o (List.mem_cons_self o rest)) c
      have h2 := ih (fun o' ho' => hall o' (List.mem_cons_of_mem o ho')) (applyOp s o) c
      exact ⟨le_trans h1.1 h2.1, le_trans h1.2 h2.2⟩
  · intro s c em md t
    exact ⟨errorCountOf_mark_failed_self s c em md t,
           warningCountOf_mark_failed_self s c em md t⟩
  · intro s c em fb md t
    exact ⟨warningCountOf_mark_degraded_self s c em fb md t,
           errorCountOf_mark_degraded_self s c em fb md t⟩

/-- C2 witness: a concrete register-free sequence, plus the exact-increment
facts at a one-component registry. -/
theorem C2_witness :
    (∀ o ∈ ([Op.markFailed "x" none none 0, Op.markDegraded "y" none true none 1,
             Op.markHealthy "x" none 2, Op.getComponent "z" 3] : List Op),
       isRegisterOp o = false) ∧
    (errorCountOf initState "x" ≤
       errorCountOf (runOps initState
         [Op.markFailed "x" none none 0, Op.markDegraded "y" none true none 1,
          Op.markHealthy "x" none 2, Op.getComponent "z" 3]) "x" ∧
     warningCountOf initState "x" ≤
       warningCountOf (runOps initState
         [Op.markFailed "x" none none 0, Op.markDegraded "y" none true none 1,
          Op.markHealthy "x" none 2, Op.getComponent "z" 3]) "x") ∧
    (errorCountOf (mark_failed sampleX "x" none none 5) "x" =
       errorCountOf sampleX "x" + 1 ∧
     warningCountOf (mark_failed sampleX "x" none none 5) "x" =
       warningCountOf sampleX "x") ∧
    (warningCountOf (mark_degraded sampleX "x" none true none 5) "x" =
       warningCountOf sampleX "x" + 1 ∧
     errorCountOf (mark_degraded sampleX "x" none true none 5) "x" =
       errorCountOf sampleX "x") :=
  ⟨by decide,
   C2_counters_monotone.1
     [Op.markFailed "x" none none 0, Op.markDegraded "y" none true none 1,
      Op.markHealthy "x" none 2, Op.getComponent "z" 3] (by decide) initState "x",
   C2_counters_monotone.2.1 sampleX "x" none none 5,
   C2_counters_monotone.2.2 sampleX "x" none true none 5⟩

/-- C6: `get_component_health` on an unseen name returns a record with
status `UNKNOWN` without failing, stores that record under the name (so a
subsequent `get_all_health` snapshot includes it), and every state reachable
from a fresh registry by public operations has at most one record per
distinct name (no duplicate keys). -/
theorem C6_get_component_auto_registers :
    (∀ (s : MonitorState) (c : String) (now : Nat) (collab : CollabResult)
        (now2 : Nat),
      s.components.lookup c = none →
        (get_component_health s c now).1.status = HealthStatus.unknown ∧
        (get_component_health s c now).2.components.lookup c =
          some (get_component_health s c now).1 ∧
        (List.lookup c
            (get_all_health (get_component_health s c now).2 collab now2).1).isSome =
          true) ∧
    (∀ ops : List Op, (((runOps initState ops).components.map Prod.fst).Nodup)) := by
  constructor
  · intro s c now collab now2 h
    refine ⟨?_, ?_, ?_⟩
    · unfold get_component_health
      rw [h]
    · rw [lookup_get_component_health, if_pos rfl]
    · by_cases hc : c = "system_resources"
      · subst hc
        cases collab <;>
          (simp only [get_all_health]
           rw [lookup_dictInsert, if_pos rfl]
           rfl)
      · rw [lookup_get_all_health _ collab now2 hc, lookup_get_component_health,
          if_pos rfl]
        rfl
  · intro ops
    have key : ∀ (l : List Op) (s : MonitorState),
        (s.components.map Prod.fst).Nodup →
        (((runOps s l).components.map Prod.fst).Nodup) := by
      intro l
      induction l with
      | nil => exact fun s hs => hs
      | cons o rest ih => exact fun s hs => ih (applyOp s o) (nodup_keys_applyOp s o hs)
    exact key ops initState (by simp [initState])

/-- C6 witness: the unseen name `"never_seen"` on a fresh registry, and a
concrete operation sequence with no duplicate keys. -/
theorem C6_witness :
    initState.components.lookup "never_seen" = none ∧
    ((get_component_health initState "never_seen" 0).1.status =
       HealthStatus.unknown ∧
     (get_component_health initState "never_seen" 0).2.components.lookup
         "never_seen" = some (get_component_health initState "never_seen" 0).1 ∧
     (List.lookup "never_seen"
         (get_all_health (get_component_health initState "never_seen" 0).2
           (CollabResult.err "x") 1).1).isSome = true) ∧
    (((runOps initState
        [Op.markFailed "a" none none 0, Op.register "a" none 1,
         Op.getComponent "b" 2]).components.map Prod.fst).Nodup) :=
  ⟨rfl,
   C6_get_component_auto_registers.1 initState "never_seen" 0 (CollabResult.err "x")
     1 rfl,
   C6_get_component_auto_registers.2
     [Op.markFailed "a" none none 0, Op.register "a" none 1,
      Op.getComponent "b" 2]⟩

theorem replaceChar_all_no_nl_cr (l : List Char) :
    (replaceChar (replaceChar l (Char.ofNat 10) ' ') (Char.ofNat 13) ' ').all
      (fun c => !(c == Char.ofNat 10) && !(c == Char.ofNat 13)) = true := by
  induction l with
  | nil => rfl
  | cons c rest ih =>
    simp only [replaceChar, List.map_cons, List.all_cons] at ih ⊢
    rw [ih, Bool.and_true]
    by_cases h1 : c = Char.ofNat 10
    · simp [h1]
    · by_cases h2 : c = Char.ofNat 13 <;> simp [h1, h2]

/-- C9: every line emitted through `log_event` (and hence through every
convenience wrapper, each of which is a plain call to `log_event`) renders
the fields in the order timestamp, level, event type, user, ip, resource,
action, details, and the rendered details string contains no newline and no
carriage-return characters, whatever the supplied details mapping holds. -/
theorem C9_audit_line_shape (asctime : String) (et : AuditEventType)
    (user ip resource action : String) (details : Option Dict) (level : LogLevel) :
    log_event asctime et user ip resource action details level =
      String.intercalate " - "
        [asctime, level.levelname, et.value, user, ip, resource, action,
         String.mk (details_str_of details)] ∧
    (details_str_of details).all
      (fun c => !(c == Char.ofNat 10) && !(c == Char.ofNat 13)) = true := by
  constructor
  · simp [log_event, audit_format, String.intercalate, String.intercalate.go,
      String.append_assoc]
  · cases details with
    | none => rfl
    | some d =>
      rcases hd : d.isEmpty with _ | _
      · simp only [details_str_of, hd, Bool.false_eq_true, if_false]
        exact replaceChar_all_no_nl_cr _
      · simp [details_str_of, hd]

end AstraGuard
